import Mathlib

/-!
Shallow embedding of `infrastructure/pulumi/__main__.py` (gitops-ultra).

The Python program is a Pulumi resource-declaration script: it reads three
required configuration values, declares an S3 bucket (with versioning,
encryption, public-access block and an access policy), an SQS queue pair
(dead-letter queue plus primary queue with a redrive policy and an access
policy), an IAM role whose assume-role (trust) document depends on whether
an EKS cluster can be resolved, two policy attachments, Kubernetes objects
(namespace, service account, config map), and a fixed set of stack exports.

Python dicts passed to `json.dumps` are modelled by the `Json` inductive
below (fields in insertion order, as Python preserves it); Python's
`str.replace` is modelled by `pyReplace`; the overall script is the
function `run`, which returns `Except RunError ProgramResult` — a missing
required configuration value aborts the run before any resource is built,
mirroring `pulumi.Config.require` raising a missing-configuration error.

Note on identifiers: the Python variables `prefix` and `namespace` are
Lean keywords, so they are rendered `pfx` and `nsName` throughout.
-/

/-- JSON-shaped values, mirroring the Python dicts handed to `json.dumps`.
Object fields are kept in insertion order, as Python preserves it. -/
inductive Json where
  | str : String → Json
  | num : Int → Json
  | arr : List Json → Json
  | obj : List (String × Json) → Json
deriving Repr

/-- Look up a top-level key of a JSON object. -/
def Json.get? (j : Json) (k : String) : Option Json :=
  match j with
  | .obj fs => (fs.find? (fun f => f.1 == k)).map (·.2)
  | _ => none

mutual

/-- Whether a key occurs anywhere in a JSON value (any nesting depth). -/
def Json.hasKey (k : String) : Json → Bool
  | .str _ => false
  | .num _ => false
  | .arr xs => Json.listHasKey k xs
  | .obj fs => Json.fieldsHasKey k fs

/-- Lifts `Json.hasKey` over a list of values. -/
def Json.listHasKey (k : String) : List Json → Bool
  | [] => false
  | j :: js => Json.hasKey k j || Json.listHasKey k js

/-- Lifts `Json.hasKey` over object fields: a field matches if its own key
is `k` or its value contains `k`. -/
def Json.fieldsHasKey (k : String) : List (String × Json) → Bool
  | [] => false
  | f :: fs => f.1 == k || Json.hasKey k f.2 || Json.fieldsHasKey k fs

end

/-- Core of Python `str.replace` for a nonempty pattern `p`: scan the
character list left to right; on a match emit `r` and skip the rest of the
matched pattern (the skip counter is the first argument). Non-overlapping,
leftmost-first — exactly CPython's semantics for nonempty patterns. -/
def replaceGo (p r : List Char) : Nat → List Char → List Char
  | 0, [] => []
  | 0, c :: cs =>
    if p.isPrefixOf (c :: cs) then r ++ replaceGo p r (p.length - 1) cs
    else c :: replaceGo p r 0 cs
  | _ + 1, [] => []
  | k + 1, _ :: cs => replaceGo p r k cs

/-- Python `str.replace` with an empty pattern inserts the replacement at
every character boundary, including both ends. -/
def emptyPatReplace (r : List Char) : List Char → List Char
  | [] => r
  | c :: cs => r ++ c :: emptyPatReplace r cs

/-- Python `s.replace(pat, rep)` (no count argument). -/
def pyReplace (s pat rep : String) : String :=
  if pat.data.isEmpty then ⟨emptyPatReplace rep.data s.data⟩
  else ⟨replaceGo pat.data rep.data 0 s.data⟩


/-! ## Configuration and environment -/

/-- The layered configuration store: `get ns key` is the value of `key` in
configuration namespace `ns` (e.g. `get "aws" "region"`), or `none` when
absent. Models `pulumi.Config(ns).get(key)`. -/
structure Config where
  get : String → String → Option String

/-- Errors that abort the script: `pulumi.Config.require` raising a
missing-configuration error (naming the namespace and key), or an index
error while reading the resolved cluster's identity list. -/
inductive RunError where
  | missingConfig (cfgNs key : String)
  | indexError
deriving DecidableEq, Repr

/-- Models `pulumi.Config(ns).require(key)`: the value, or a named
missing-configuration failure. -/
def requireCfg (cfg : Config) (cfgNs key : String) : Except RunError String :=
  match cfg.get cfgNs key with
  | some v => .ok v
  | none => .error (.missingConfig cfgNs key)

/-- The `(namespace, key)` pairs read with `.require` (lines 17–19 of the
source): `aws:region`, `project:prefix`, `kubernetes:namespace`. -/
def required_config_keys : List (String × String) :=
  [("aws", "region"), ("project", "prefix"), ("kubernetes", "namespace")]

/-- One OIDC descriptor of an EKS cluster identity (`oidcs[i].issuer`). -/
structure ClusterOidc where
  issuer : String
deriving Repr

/-- One identity entry of a resolved EKS cluster (`identities[i].oidcs`). -/
structure ClusterIdentity where
  oidcs : List ClusterOidc
deriving Repr

/-- The result of `aws.eks.get_cluster`, restricted to the fields the
script reads. -/
structure Cluster where
  identities : List ClusterIdentity
deriving Repr

/-- Ambient data the script obtains from Pulumi/AWS rather than from its
configuration: the stack name (`pulumi.get_stack()`), the caller account id
(`aws.get_caller_identity().account_id`), the partition
(`aws.get_partition().partition`), and the outcome of the
`aws.eks.get_cluster` call — `none` models the lookup raising. -/
structure Env where
  stack : String
  account_id : String
  partition : String
  cluster : Option Cluster

/-! ## Derived names, tags and policy documents (transcribed from source) -/

/-- Tags applied to every taggable AWS resource (source lines 22–27). -/
def common_tags (stack pfx : String) : List (String × String) :=
  [("Environment", stack),
   ("Project", pfx),
   ("ManagedBy", "Pulumi"),
   ("GitOps", "true")]

/-- Source line 33: `bucket_name = f"{prefix}-data-bucket"`. -/
def bucket_name (pfx : String) : String := pfx ++ "-data-bucket"

/-- Source line 99: `queue_name = f"{prefix}-processing-queue"`. -/
def queue_name (pfx : String) : String := pfx ++ "-processing-queue"

/-- The S3 access policy document: the lambda applied to the bucket ARN at
lines 77–91 of the source. -/
def s3_access_policy_document (arn : String) : Json :=
  .obj [
    ("Version", .str "2012-10-17"),
    ("Statement", .arr [
      .obj [
        ("Effect", .str "Allow"),
        ("Action", .arr [
          .str "s3:GetObject",
          .str "s3:PutObject",
          .str "s3:DeleteObject",
          .str "s3:ListBucket"]),
        ("Resource", .arr [.str arn, .str (arn ++ "/*")])]])]

/-- The primary queue's redrive policy document: the lambda applied to the
DLQ ARN at lines 117–120 of the source. -/
def redrive_policy_document (dlq_arn : String) : Json :=
  .obj [
    ("deadLetterTargetArn", .str dlq_arn),
    ("maxReceiveCount", .num 3)]

/-- The SQS access policy document: the lambda applied to the list
`[queue arn, dlq arn]` at lines 129–143 of the source. -/
def sqs_access_policy_document (arns : List String) : Json :=
  .obj [
    ("Version", .str "2012-10-17"),
    ("Statement", .arr [
      .obj [
        ("Effect", .str "Allow"),
        ("Action", .arr [
          .str "sqs:SendMessage",
          .str "sqs:ReceiveMessage",
          .str "sqs:DeleteMessage",
          .str "sqs:GetQueueAttributes",
          .str "sqs:GetQueueUrl"]),
        ("Resource", .arr (arns.map .str))]])]

/-- The warning logged when `aws.eks.get_cluster` raises (line 165). -/
def eks_cluster_warning (cluster_name : String) : String :=
  "EKS cluster '" ++ cluster_name ++
    "' not found. IRSA will be configured but may not work until cluster exists."

/-- Transcribes `create_assume_role_policy_basic` (lines 167–185): account-root trust
gated by an external-id condition. -/
def create_assume_role_policy_basic (partition account_id pfx : String) : Json :=
  .obj [
    ("Version", .str "2012-10-17"),
    ("Statement", .arr [
      .obj [
        ("Effect", .str "Allow"),
        ("Principal", .obj [
          ("AWS", .str ("arn:" ++ partition ++ ":iam::" ++ account_id ++ ":root"))]),
        ("Action", .str "sts:AssumeRole"),
        ("Condition", .obj [
          ("StringEquals", .obj [
            ("sts:ExternalId", .str (pfx ++ "-external-id"))])])]])]

/-- The subject string of the IRSA trust condition,
`f"system:serviceaccount:{namespace}:{prefix}-service-account"` (line 203). -/
def irsa_subject (nsName pfx : String) : String :=
  "system:serviceaccount:" ++ nsName ++ ":" ++ pfx ++ "-service-account"

/-- Transcribes `create_assume_role_policy_irsa` (lines 187–209): federated trust on the
cluster's OIDC provider. Reading `identities[0].oidcs[0].issuer` is
fallible (Python would raise `IndexError`), hence the `Option`. -/
def create_assume_role_policy_irsa (partition account_id nsName pfx : String)
    (cluster_data : Cluster) : Option Json :=
  match cluster_data.identities.head? with
  | none => none
  | some id0 =>
    match id0.oidcs.head? with
    | none => none
    | some o0 =>
      let oidc_url := o0.issuer
      let oidc_arn := "arn:" ++ partition ++ ":iam::" ++ account_id ++
        ":oidc-provider/" ++ pyReplace oidc_url "https://" ""
      some (.obj [
        ("Version", .str "2012-10-17"),
        ("Statement", .arr [
          .obj [
            ("Effect", .str "Allow"),
            ("Principal", .obj [("Federated", .str oidc_arn)]),
            ("Action", .str "sts:AssumeRoleWithWebIdentity"),
            ("Condition", .obj [
              ("StringEquals", .obj [
                (pyReplace oidc_url "https://" "" ++ ":sub",
                  .str (irsa_subject nsName pfx)),
                (pyReplace oidc_url "https://" "" ++ ":aud",
                  .str "sts.amazonaws.com")])])]])])

/-! ## Resource argument records -/

/-- Arguments of `aws.s3.Bucket("data-bucket", ...)` (lines 36–40). -/
structure BucketArgs where
  bucket : String
  tags : List (String × String)

/-- Arguments of `aws.s3.BucketPublicAccessBlock` (lines 63–70). -/
structure PublicAccessBlockArgs where
  block_public_acls : Bool
  block_public_policy : Bool
  ignore_public_acls : Bool
  restrict_public_buckets : Bool

/-- Arguments of `aws.iam.Policy("s3-access-policy", ...)` (lines 73–93). The policy
document is late-bound on the bucket ARN (`s3_bucket.arn.apply(...)`), so
it is kept as a function of that ARN. -/
structure S3PolicyArgs where
  name : String
  description : String
  policy : String → Json
  tags : List (String × String)

/-- Arguments of `aws.sqs.Queue("dead-letter-queue", ...)` (lines 102–106). -/
structure DlqArgs where
  name : String
  tags : List (String × String)

/-- Arguments of `aws.sqs.Queue("processing-queue", ...)` (lines 109–122). The redrive
policy is late-bound on the DLQ ARN (`dlq.arn.apply(...)`). -/
structure QueueArgs where
  name : String
  delay_seconds : Nat
  max_message_size : Nat
  message_retention_seconds : Nat
  visibility_timeout_seconds : Nat
  receive_wait_time_seconds : Nat
  redrive_policy : String → Json
  tags : List (String × String)

/-- Arguments of `aws.iam.Policy("sqs-access-policy", ...)` (lines 125–146). The policy
document is late-bound on `[queue arn, dlq arn]`
(`pulumi.Output.all(...).apply(...)`). -/
structure SqsPolicyArgs where
  name : String
  description : String
  policy : List String → Json
  tags : List (String × String)

/-- Arguments of `aws.iam.Role("service-account-role", ...)` (lines 217–222). -/
structure RoleArgs where
  name : String
  assume_role_policy : Json
  tags : List (String × String)

/-- Arguments of `k8s.core.v1.Namespace("app-namespace", ...)` (lines 243–253). -/
structure NamespaceArgs where
  name : String
  labels : List (String × String)

/-- Arguments of `k8s.core.v1.ServiceAccount("service-account", ...)` (lines 256–271).
Its `eks.amazonaws.com/role-arn` metadata entry is late-bound on the role
ARN and therefore not recorded as a literal here. -/
structure ServiceAccountArgs where
  name : String
  nsName : String
  labels : List (String × String)
  depends_on_namespace : Bool

/-- Arguments of `k8s.core.v1.ConfigMap("aws-resources-config", ...)` (lines 274–294).
Most data values are late-bound resource outputs; the statically known
region entries are recorded. -/
structure ConfigMapArgs where
  name : String
  nsName : String
  labels : List (String × String)
  data_keys : List String
  aws_region : String
  aws_default_region : String
  depends_on_namespace : Bool

/-- The logical names of the resources the script declares, in source
order. -/
def declared_resources : List String :=
  ["data-bucket", "bucket-versioning", "bucket-encryption",
   "bucket-public-access-block", "s3-access-policy",
   "dead-letter-queue", "processing-queue", "sqs-access-policy",
   "service-account-role", "s3-policy-attachment", "sqs-policy-attachment",
   "app-namespace", "service-account", "aws-resources-config"]

/-- The `pulumi.export` keys (lines 301–322), in source order. -/
def export_names : List String :=
  ["bucket_name", "bucket_arn", "bucket_domain_name",
   "queue_url", "queue_arn", "queue_name",
   "dlq_url", "dlq_arn",
   "service_account_role_arn", "service_account_role_name",
   "kubernetes_namespace", "kubernetes_service_account_name",
   "s3_access_policy_arn", "sqs_access_policy_arn", "config"]

/-- Everything a successful execution of the script declares or exports. -/
structure ProgramResult where
  warnings : List String
  cluster_exists : Bool
  s3_bucket : BucketArgs
  s3_versioning_status : String
  s3_encryption_sse_algorithm : String
  s3_public_access_block : PublicAccessBlockArgs
  s3_access_policy : S3PolicyArgs
  dlq : DlqArgs
  sqs_queue : QueueArgs
  sqs_access_policy : SqsPolicyArgs
  service_account_role : RoleArgs
  s3_policy_attachment_role : String
  sqs_policy_attachment_role : String
  k8s_namespace : NamespaceArgs
  service_account : ServiceAccountArgs
  config_map : ConfigMapArgs
  declared : List String
  exports : List String

/-! ## The script -/

/-- The full set of declarations a successful execution produces, given
the three configuration values, the stack name, the cluster-lookup
outcome (`cexists`/`warns`) and the selected trust document `arp`.
Field values are transcribed from the resource declarations of the
source, lines 33–322. -/
def scriptResult (region pfx nsName stack : String) (cexists : Bool)
    (warns : List String) (arp : Json) : ProgramResult :=
  let tags := common_tags stack pfx
  let bname := bucket_name pfx
  let qname := queue_name pfx
  {
    warnings := warns
    cluster_exists := cexists
    s3_bucket := { bucket := bname, tags := tags }
    s3_versioning_status := "Enabled"
    s3_encryption_sse_algorithm := "AES256"
    s3_public_access_block := {
      block_public_acls := true
      block_public_policy := true
      ignore_public_acls := true
      restrict_public_buckets := true }
    s3_access_policy := {
      name := bname ++ "-access-policy"
      description := "Policy for accessing S3 bucket " ++ bname
      policy := s3_access_policy_document
      tags := tags }
    dlq := { name := qname ++ "-dlq", tags := tags }
    sqs_queue := {
      name := qname
      delay_seconds := 0
      max_message_size := 262144
      message_retention_seconds := 345600
      visibility_timeout_seconds := 30
      receive_wait_time_seconds := 0
      redrive_policy := redrive_policy_document
      tags := tags }
    sqs_access_policy := {
      name := qname ++ "-access-policy"
      description := "Policy for accessing SQS queue " ++ qname
      policy := sqs_access_policy_document
      tags := tags }
    service_account_role := {
      name := pfx ++ "-k8s-service-role"
      assume_role_policy := arp
      tags := tags }
    s3_policy_attachment_role := pfx ++ "-k8s-service-role"
    sqs_policy_attachment_role := pfx ++ "-k8s-service-role"
    k8s_namespace := {
      name := nsName
      labels := [("name", nsName),
                 ("app.kubernetes.io/managed-by", "Pulumi"),
                 ("gitops.io/environment", stack)] }
    service_account := {
      name := pfx ++ "-service-account"
      nsName := nsName
      labels := [("app.kubernetes.io/name", pfx ++ "-service-account"),
                 ("app.kubernetes.io/managed-by", "Pulumi"),
                 ("gitops.io/environment", stack)]
      depends_on_namespace := true }
    config_map := {
      name := pfx ++ "-aws-resources"
      nsName := nsName
      labels := [("app.kubernetes.io/name", pfx ++ "-config"),
                 ("app.kubernetes.io/managed-by", "Pulumi"),
                 ("gitops.io/environment", stack)]
      data_keys := ["S3_BUCKET_NAME", "SQS_QUEUE_URL", "SQS_QUEUE_NAME",
                    "SQS_DLQ_URL", "AWS_REGION", "AWS_DEFAULT_REGION"]
      aws_region := region
      aws_default_region := region
      depends_on_namespace := true }
    declared := declared_resources
    exports := export_names }

/-- The whole script, top to bottom: read the three required configuration
values (lines 17–19; the first missing one aborts the run with a named
missing-configuration error, before any resource is built), branch on the
cluster lookup for the trust policy (lines 160–165 and 212–215, logging
the warning when the lookup raised), and declare every resource and
export. -/
def run (cfg : Config) (env : Env) : Except RunError ProgramResult := do
  let region ← requireCfg cfg "aws" "region"
  let pfx ← requireCfg cfg "project" "prefix"
  let nsName ← requireCfg cfg "kubernetes" "namespace"
  let cluster_name := pfx ++ "-cluster"
  let warns :=
    match env.cluster with
    | some _ => []
    | none => [eks_cluster_warning cluster_name]
  let arp ←
    match env.cluster with
    | some c =>
      match create_assume_role_policy_irsa env.partition env.account_id nsName pfx c with
      | some d => Except.ok d
      | none => Except.error RunError.indexError
    | none => Except.ok (create_assume_role_policy_basic env.partition env.account_id pfx)
  Except.ok (scriptResult region pfx nsName env.stack env.cluster.isSome warns arp)

/-! ## Helper lemmas -/

/-- String concatenation is associative (Python f-strings concatenate
left-to-right, so grouping differences must be erasable). -/
theorem string_append_assoc (a b c : String) : a ++ b ++ c = a ++ (b ++ c) := by
  cases a
  cases b
  cases c
  exact congrArg String.mk (List.append_assoc _ _ _)

@[simp] theorem except_bind_ok {α β ε : Type} (a : α) (k : α → Except ε β) :
    (Except.ok a : Except ε α) >>= k = k a := rfl

@[simp] theorem except_bind_error {α β ε : Type} (e : ε) (k : α → Except ε β) :
    (Except.error e : Except ε α) >>= k = Except.error e := rfl

/-- Inversion of a successful run: the three required configuration values
were present, and the result is `scriptResult` with the trust document of
whichever cluster branch was taken. -/
theorem run_ok_inv (cfg : Config) (env : Env) (r : ProgramResult)
    (h : run cfg env = Except.ok r) :
    ∃ region pfx nsName arp,
      cfg.get "aws" "region" = some region ∧
      cfg.get "project" "prefix" = some pfx ∧
      cfg.get "kubernetes" "namespace" = some nsName ∧
      ((env.cluster = none ∧
        arp = create_assume_role_policy_basic env.partition env.account_id pfx ∧
        r = scriptResult region pfx nsName env.stack false
              [eks_cluster_warning (pfx ++ "-cluster")] arp) ∨
       (∃ c, env.cluster = some c ∧
        create_assume_role_policy_irsa env.partition env.account_id nsName pfx c = some arp ∧
        r = scriptResult region pfx nsName env.stack true [] arp)) := by
  unfold run at h
  cases h1 : cfg.get "aws" "region" with
  | none => simp [requireCfg, h1] at h
  | some region =>
    cases h2 : cfg.get "project" "prefix" with
    | none => simp [requireCfg, h1, h2] at h
    | some pfx =>
      cases h3 : cfg.get "kubernetes" "namespace" with
      | none => simp [requireCfg, h1, h2, h3] at h
      | some nsName =>
        cases h4 : env.cluster with
        | none =>
          simp only [requireCfg, h1, h2, h3, h4, except_bind_ok, Option.isSome_none,
            Except.ok.injEq] at h
          exact ⟨region, pfx, nsName, _, rfl, rfl, rfl, Or.inl ⟨rfl, rfl, h.symm⟩⟩
        | some c =>
          cases h5 : create_assume_role_policy_irsa env.partition env.account_id nsName pfx c with
          | none => simp [requireCfg, h1, h2, h3, h4, h5] at h
          | some d =>
            simp only [requireCfg, h1, h2, h3, h4, h5, except_bind_ok, Option.isSome_some,
              Except.ok.injEq] at h
            exact ⟨region, pfx, nsName, d, rfl, rfl, rfl, Or.inr ⟨c, rfl, h5, h.symm⟩⟩

/-! ## Concrete instances used by the witnesses -/

/-- A configuration providing exactly the three required values. -/
def cfgEx : Config :=
  ⟨fun cfgNs key =>
    if cfgNs == "aws" && key == "region" then some "us-west-2"
    else if cfgNs == "project" && key == "prefix" then some "demo"
    else if cfgNs == "kubernetes" && key == "namespace" then some "demo-ns"
    else none⟩

/-- A configuration missing `project:prefix`. -/
def cfgMissingPfx : Config :=
  ⟨fun cfgNs key =>
    if cfgNs == "aws" && key == "region" then some "us-west-2"
    else if cfgNs == "kubernetes" && key == "namespace" then some "demo-ns"
    else none⟩

/-- An example OIDC descriptor. -/
def oidcEx : ClusterOidc := ⟨"https://oidc.example.com/id/ABC"⟩

/-- An example cluster identity. -/
def identityEx : ClusterIdentity := ⟨[oidcEx]⟩

/-- An example resolved cluster. -/
def clusterEx : Cluster := ⟨[identityEx]⟩

/-- Environment in which the cluster lookup raises. -/
def envNone : Env := ⟨"dev", "123456789012", "aws", none⟩

/-- Environment in which the cluster lookup succeeds with `clusterEx`. -/
def envSome : Env := ⟨"dev", "123456789012", "aws", some clusterEx⟩

/-- The result of a successful run of `cfgEx` when the cluster is absent. -/
def resultBasicEx : ProgramResult :=
  scriptResult "us-west-2" "demo" "demo-ns" "dev" false
    [eks_cluster_warning ("demo" ++ "-cluster")]
    (create_assume_role_policy_basic "aws" "123456789012" "demo")

/-- The IRSA trust document produced for `clusterEx`. -/
def irsaDocEx : Json :=
  (create_assume_role_policy_irsa "aws" "123456789012" "demo-ns" "demo" clusterEx).getD
    (Json.obj [])

/-- The result of a successful run of `cfgEx` when the cluster resolves to
`clusterEx`. -/
def resultIrsaEx : ProgramResult :=
  scriptResult "us-west-2" "demo" "demo-ns" "dev" true [] irsaDocEx


/-! ## Claims -/

/-- C1: when cluster resolution succeeds with issuer URL
`https://oidc.example.com/id/ABC`, the IRSA trust document's federated
principal ARN embeds `oidc.example.com/id/ABC` (the issuer with the
`https://` scheme stripped), both `StringEquals` condition keys use the
same stripped issuer string as a prefix (`...:sub` and `...:aud`), the
subject value is `system:serviceaccount:{namespace}:{prefix}-service-account`,
and the audience value is `sts.amazonaws.com`. -/
theorem irsa_trust_document_strips_scheme
    (partition account_id nsName pfx : String) (c : Cluster)
    (id0 : ClusterIdentity) (o0 : ClusterOidc)
    (h1 : c.identities.head? = some id0)
    (h2 : id0.oidcs.head? = some o0)
    (h3 : o0.issuer = "https://oidc.example.com/id/ABC") :
    create_assume_role_policy_irsa partition account_id nsName pfx c =
      some (Json.obj [
        ("Version", .str "2012-10-17"),
        ("Statement", .arr [
          .obj [
            ("Effect", .str "Allow"),
            ("Principal", .obj [("Federated",
              .str ("arn:" ++ partition ++ ":iam::" ++ account_id ++
                ":oidc-provider/" ++ "oidc.example.com/id/ABC"))]),
            ("Action", .str "sts:AssumeRoleWithWebIdentity"),
            ("Condition", .obj [
              ("StringEquals", .obj [
                ("oidc.example.com/id/ABC" ++ ":sub",
                  .str ("system:serviceaccount:" ++ nsName ++ ":" ++ pfx ++
                    "-service-account")),
                ("oidc.example.com/id/ABC" ++ ":aud",
                  .str "sts.amazonaws.com")])])]])]) := by
  have hs : pyReplace "https://oidc.example.com/id/ABC" "https://" "" =
      "oidc.example.com/id/ABC" := rfl
  simp only [create_assume_role_policy_irsa, h1, h2, h3, hs, irsa_subject]

/-- Witness for C1 at a concrete cluster, partition, account, namespace
and prefix. -/
theorem irsa_trust_document_strips_scheme_witness :
    clusterEx.identities.head? = some identityEx ∧
    identityEx.oidcs.head? = some oidcEx ∧
    oidcEx.issuer = "https://oidc.example.com/id/ABC" ∧
    create_assume_role_policy_irsa "aws" "123456789012" "demo-ns" "demo" clusterEx =
      some (Json.obj [
        ("Version", .str "2012-10-17"),
        ("Statement", .arr [
          .obj [
            ("Effect", .str "Allow"),
            ("Principal", .obj [("Federated",
              .str "arn:aws:iam::123456789012:oidc-provider/oidc.example.com/id/ABC")]),
            ("Action", .str "sts:AssumeRoleWithWebIdentity"),
            ("Condition", .obj [
              ("StringEquals", .obj [
                ("oidc.example.com/id/ABC:sub",
                  .str "system:serviceaccount:demo-ns:demo-service-account"),
                ("oidc.example.com/id/ABC:aud",
                  .str "sts.amazonaws.com")])])]])]) :=
  ⟨rfl, rfl, rfl,
    irsa_trust_document_strips_scheme "aws" "123456789012" "demo-ns" "demo"
      clusterEx identityEx oidcEx rfl rfl rfl⟩

/-- C2: when cluster resolution fails, the produced trust document has
exactly one statement, whose principal is the key `AWS` mapped to the
account-root ARN, whose condition is a `StringEquals` on `sts:ExternalId`
equal to `{prefix}-external-id`, and the document contains no `Federated`
principal anywhere. -/
theorem basic_trust_document_shape
    (cfg : Config) (env : Env) (r : ProgramResult)
    (hc : env.cluster = none)
    (hrun : run cfg env = Except.ok r) :
    ∃ pfx, cfg.get "project" "prefix" = some pfx ∧
      r.service_account_role.assume_role_policy.get? "Statement" =
        some (Json.arr [Json.obj [
          ("Effect", .str "Allow"),
          ("Principal", .obj [("AWS",
            .str ("arn:" ++ env.partition ++ ":iam::" ++ env.account_id ++ ":root"))]),
          ("Action", .str "sts:AssumeRole"),
          ("Condition", .obj [
            ("StringEquals", .obj [
              ("sts:ExternalId", .str (pfx ++ "-external-id"))])])]]) ∧
      Json.hasKey "Federated" r.service_account_role.assume_role_policy = false := by
  obtain ⟨region, pfx, nsName, arp, hg1, hg2, hg3, hcase⟩ := run_ok_inv cfg env r hrun
  rcases hcase with ⟨-, harp, hr⟩ | ⟨c, hc', -, -⟩
  · subst harp hr
    exact ⟨pfx, hg2, rfl, rfl⟩
  · rw [hc] at hc'
    cases hc'

/-- Witness for C2 at a concrete configuration and environment. -/
theorem basic_trust_document_shape_witness :
    envNone.cluster = none ∧
    run cfgEx envNone = Except.ok resultBasicEx ∧
    (∃ pfx, cfgEx.get "project" "prefix" = some pfx ∧
      resultBasicEx.service_account_role.assume_role_policy.get? "Statement" =
        some (Json.arr [Json.obj [
          ("Effect", .str "Allow"),
          ("Principal", .obj [("AWS",
            .str ("arn:" ++ envNone.partition ++ ":iam::" ++ envNone.account_id ++ ":root"))]),
          ("Action", .str "sts:AssumeRole"),
          ("Condition", .obj [
            ("StringEquals", .obj [
              ("sts:ExternalId", .str (pfx ++ "-external-id"))])])]]) ∧
      Json.hasKey "Federated" resultBasicEx.service_account_role.assume_role_policy = false) :=
  ⟨rfl, rfl, basic_trust_document_shape cfgEx envNone resultBasicEx rfl rfl⟩

/-- C3: when the cluster lookup raises, the failure is recovered locally:
the run still succeeds, the warning diagnostic is recorded, the trust
policy falls back to the basic account-scoped variant, and every remaining
resource and export is still declared. -/
theorem cluster_lookup_failure_recovers
    (cfg : Config) (env : Env) (region pfx nsName : String)
    (h1 : cfg.get "aws" "region" = some region)
    (h2 : cfg.get "project" "prefix" = some pfx)
    (h3 : cfg.get "kubernetes" "namespace" = some nsName)
    (hc : env.cluster = none) :
    ∃ r, run cfg env = Except.ok r ∧
      r.warnings = [eks_cluster_warning (pfx ++ "-cluster")] ∧
      r.service_account_role.assume_role_policy =
        create_assume_role_policy_basic env.partition env.account_id pfx ∧
      r.declared = declared_resources ∧
      r.exports = export_names := by
  refine ⟨scriptResult region pfx nsName env.stack false
      [eks_cluster_warning (pfx ++ "-cluster")]
      (create_assume_role_policy_basic env.partition env.account_id pfx),
    ?_, rfl, rfl, rfl, rfl⟩
  unfold run
  simp [requireCfg, h1, h2, h3, hc]

/-- Witness for C3 at a concrete configuration and environment. -/
theorem cluster_lookup_failure_recovers_witness :
    cfgEx.get "aws" "region" = some "us-west-2" ∧
    cfgEx.get "project" "prefix" = some "demo" ∧
    cfgEx.get "kubernetes" "namespace" = some "demo-ns" ∧
    envNone.cluster = none ∧
    (∃ r, run cfgEx envNone = Except.ok r ∧
      r.warnings = [eks_cluster_warning ("demo" ++ "-cluster")] ∧
      r.service_account_role.assume_role_policy =
        create_assume_role_policy_basic envNone.partition envNone.account_id "demo" ∧
      r.declared = declared_resources ∧
      r.exports = export_names) :=
  ⟨rfl, rfl, rfl, rfl,
    cluster_lookup_failure_recovers cfgEx envNone "us-west-2" "demo" "demo-ns"
      rfl rfl rfl rfl⟩

/-- C4 counterexample: the configuration intake reads three required
values, not four — a configuration defined on exactly the three keys
`aws:region`, `project:prefix`, `kubernetes:namespace` (and nothing else)
already makes the whole run succeed. -/
theorem config_intake_reads_three_keys_not_four :
    required_config_keys.length = 3 ∧ (run cfgEx envNone).isOk = true :=
  ⟨rfl, rfl⟩

/-- C4 (amended): the configuration intake reads three required string
values; if any of them is absent the whole run fails with a named
missing-configuration error, so no resource list is produced at all. -/
theorem missing_required_config_aborts
    (cfg : Config) (env : Env)
    (h : cfg.get "aws" "region" = none ∨ cfg.get "project" "prefix" = none ∨
         cfg.get "kubernetes" "namespace" = none) :
    ∃ p, p ∈ required_config_keys ∧
      run cfg env = Except.error (RunError.missingConfig p.1 p.2) := by
  cases h1 : cfg.get "aws" "region" with
  | none =>
    refine ⟨("aws", "region"), by simp [required_config_keys], ?_⟩
    unfold run
    simp [requireCfg, h1]
  | some region =>
    cases h2 : cfg.get "project" "prefix" with
    | none =>
      refine ⟨("project", "prefix"), by simp [required_config_keys], ?_⟩
      unfold run
      simp [requireCfg, h1, h2]
    | some pfx =>
      cases h3 : cfg.get "kubernetes" "namespace" with
      | none =>
        refine ⟨("kubernetes", "namespace"), by simp [required_config_keys], ?_⟩
        unfold run
        simp [requireCfg, h1, h2, h3]
      | some nsName =>
        rcases h with h | h | h
        · simp [h1] at h
        · simp [h2] at h
        · simp [h3] at h

/-- Witness for the amended C4: a configuration missing `project:prefix`
aborts with the corresponding missing-configuration error. -/
theorem missing_required_config_aborts_witness :
    (cfgMissingPfx.get "aws" "region" = none ∨
     cfgMissingPfx.get "project" "prefix" = none ∨
     cfgMissingPfx.get "kubernetes" "namespace" = none) ∧
    (∃ p, p ∈ required_config_keys ∧
      run cfgMissingPfx envNone = Except.error (RunError.missingConfig p.1 p.2)) :=
  ⟨Or.inr (Or.inl rfl),
    missing_required_config_aborts cfgMissingPfx envNone (Or.inr (Or.inl rfl))⟩

/-- C5: the derived resource names are deterministic functions of the
prefix — bucket `{prefix}-data-bucket`, queue `{prefix}-processing-queue`,
DLQ `{prefix}-processing-queue-dlq`. -/
theorem derived_resource_names
    (cfg : Config) (env : Env) (r : ProgramResult) (pfx : String)
    (hp : cfg.get "project" "prefix" = some pfx)
    (hrun : run cfg env = Except.ok r) :
    r.s3_bucket.bucket = pfx ++ "-data-bucket" ∧
    r.sqs_queue.name = pfx ++ "-processing-queue" ∧
    r.dlq.name = pfx ++ "-processing-queue-dlq" := by
  obtain ⟨region, pfx', nsName, arp, hg1, hg2, hg3, hcase⟩ := run_ok_inv cfg env r hrun
  obtain rfl : pfx' = pfx := by
    rw [hp] at hg2
    exact (Option.some.inj hg2).symm
  rcases hcase with ⟨-, -, hr⟩ | ⟨c, -, -, hr⟩ <;> subst hr <;>
    exact ⟨rfl, rfl, string_append_assoc _ "-processing-queue" "-dlq"⟩

/-- Witness for C5 at a concrete configuration and environment. -/
theorem derived_resource_names_witness :
    cfgEx.get "project" "prefix" = some "demo" ∧
    run cfgEx envNone = Except.ok resultBasicEx ∧
    (resultBasicEx.s3_bucket.bucket = "demo" ++ "-data-bucket" ∧
     resultBasicEx.sqs_queue.name = "demo" ++ "-processing-queue" ∧
     resultBasicEx.dlq.name = "demo" ++ "-processing-queue-dlq") :=
  ⟨rfl, rfl, derived_resource_names cfgEx envNone resultBasicEx "demo" rfl rfl⟩

/-- C6: for every input, the primary queue's redrive policy document has
`maxReceiveCount` exactly 3 and `deadLetterTargetArn` exactly the
dead-letter queue's ARN. -/
theorem redrive_policy_constants
    (cfg : Config) (env : Env) (r : ProgramResult) (dlq_arn : String)
    (hrun : run cfg env = Except.ok r) :
    r.sqs_queue.redrive_policy dlq_arn =
      Json.obj [("deadLetterTargetArn", .str dlq_arn), ("maxReceiveCount", .num 3)] ∧
    (r.sqs_queue.redrive_policy dlq_arn).get? "maxReceiveCount" = some (.num 3) ∧
    (r.sqs_queue.redrive_policy dlq_arn).get? "deadLetterTargetArn" = some (.str dlq_arn) := by
  obtain ⟨region, pfx, nsName, arp, -, -, -, hcase⟩ := run_ok_inv cfg env r hrun
  rcases hcase with ⟨-, -, hr⟩ | ⟨c, -, -, hr⟩ <;> subst hr <;>
    exact ⟨rfl, rfl, rfl⟩

/-- Witness for C6 at a concrete configuration, environment and DLQ ARN. -/
theorem redrive_policy_constants_witness :
    run cfgEx envNone = Except.ok resultBasicEx ∧
    (resultBasicEx.sqs_queue.redrive_policy
        "arn:aws:sqs:us-west-2:123456789012:demo-processing-queue-dlq" =
      Json.obj [
        ("deadLetterTargetArn",
          .str "arn:aws:sqs:us-west-2:123456789012:demo-processing-queue-dlq"),
        ("maxReceiveCount", .num 3)] ∧
     (resultBasicEx.sqs_queue.redrive_policy
        "arn:aws:sqs:us-west-2:123456789012:demo-processing-queue-dlq").get?
          "maxReceiveCount" = some (.num 3) ∧
     (resultBasicEx.sqs_queue.redrive_policy
        "arn:aws:sqs:us-west-2:123456789012:demo-processing-queue-dlq").get?
          "deadLetterTargetArn" =
       some (.str "arn:aws:sqs:us-west-2:123456789012:demo-processing-queue-dlq")) :=
  ⟨rfl, redrive_policy_constants cfgEx envNone resultBasicEx
    "arn:aws:sqs:us-west-2:123456789012:demo-processing-queue-dlq" rfl⟩

/-- C7: for every bucket ARN, the storage access policy document has a
single statement whose `Resource` list is exactly the bucket ARN and the
bucket ARN suffixed with `/*`, and whose `Action` list is exactly the four
constant S3 actions. -/
theorem s3_access_policy_shape
    (cfg : Config) (env : Env) (r : ProgramResult) (arn : String)
    (hrun : run cfg env = Except.ok r) :
    r.s3_access_policy.policy = s3_access_policy_document ∧
    (r.s3_access_policy.policy arn).get? "Statement" =
      some (Json.arr [Json.obj [
        ("Effect", .str "Allow"),
        ("Action", .arr [.str "s3:GetObject", .str "s3:PutObject",
          .str "s3:DeleteObject", .str "s3:ListBucket"]),
        ("Resource", .arr [.str arn, .str (arn ++ "/*")])]]) := by
  obtain ⟨region, pfx, nsName, arp, -, -, -, hcase⟩ := run_ok_inv cfg env r hrun
  rcases hcase with ⟨-, -, hr⟩ | ⟨c, -, -, hr⟩ <;> subst hr <;>
    exact ⟨rfl, rfl⟩

/-- Witness for C7 at a concrete configuration, environment and bucket
ARN. -/
theorem s3_access_policy_shape_witness :
    run cfgEx envNone = Except.ok resultBasicEx ∧
    (resultBasicEx.s3_access_policy.policy = s3_access_policy_document ∧
     (resultBasicEx.s3_access_policy.policy "arn:aws:s3:::demo-data-bucket").get?
        "Statement" =
       some (Json.arr [Json.obj [
         ("Effect", .str "Allow"),
         ("Action", .arr [.str "s3:GetObject", .str "s3:PutObject",
           .str "s3:DeleteObject", .str "s3:ListBucket"]),
         ("Resource", .arr [.str "arn:aws:s3:::demo-data-bucket",
           .str ("arn:aws:s3:::demo-data-bucket" ++ "/*")])]])) :=
  ⟨rfl, s3_access_policy_shape cfgEx envNone resultBasicEx
    "arn:aws:s3:::demo-data-bucket" rfl⟩

/-- C8: the primary queue is declared with fixed limits regardless of
input — retention 345600 s, visibility timeout 30 s, maximum message size
262144 bytes. -/
theorem queue_limit_constants
    (cfg : Config) (env : Env) (r : ProgramResult)
    (hrun : run cfg env = Except.ok r) :
    r.sqs_queue.message_retention_seconds = 345600 ∧
    r.sqs_queue.visibility_timeout_seconds = 30 ∧
    r.sqs_queue.max_message_size = 262144 := by
  obtain ⟨region, pfx, nsName, arp, -, -, -, hcase⟩ := run_ok_inv cfg env r hrun
  rcases hcase with ⟨-, -, hr⟩ | ⟨c, -, -, hr⟩ <;> subst hr <;>
    exact ⟨rfl, rfl, rfl⟩

/-- Witness for C8 at a concrete configuration and environment. -/
theorem queue_limit_constants_witness :
    run cfgEx envNone = Except.ok resultBasicEx ∧
    (resultBasicEx.sqs_queue.message_retention_seconds = 345600 ∧
     resultBasicEx.sqs_queue.visibility_timeout_seconds = 30 ∧
     resultBasicEx.sqs_queue.max_message_size = 262144) :=
  ⟨rfl, queue_limit_constants cfgEx envNone resultBasicEx rfl⟩

/-- C9: the subject embedded in the IRSA trust condition names exactly the
Kubernetes ServiceAccount the script declares — its metadata name is
`{prefix}-service-account` and its namespace is `{namespace}` — and the
role's trust document is the IRSA variant for the resolved cluster. -/
theorem irsa_subject_matches_service_account
    (cfg : Config) (env : Env) (r : ProgramResult) (c : Cluster) (pfx nsName : String)
    (hp : cfg.get "project" "prefix" = some pfx)
    (hn : cfg.get "kubernetes" "namespace" = some nsName)
    (hc : env.cluster = some c)
    (hrun : run cfg env = Except.ok r) :
    r.service_account.name = pfx ++ "-service-account" ∧
    r.service_account.nsName = nsName ∧
    irsa_subject nsName pfx =
      "system:serviceaccount:" ++ r.service_account.nsName ++ ":" ++
        r.service_account.name ∧
    ∃ d, create_assume_role_policy_irsa env.partition env.account_id nsName pfx c =
        some d ∧
      r.service_account_role.assume_role_policy = d := by
  obtain ⟨region, pfx', nsName', arp, hg1, hg2, hg3, hcase⟩ := run_ok_inv cfg env r hrun
  obtain rfl : pfx' = pfx := by
    rw [hp] at hg2
    exact (Option.some.inj hg2).symm
  obtain rfl : nsName' = nsName := by
    rw [hn] at hg3
    exact (Option.some.inj hg3).symm
  rcases hcase with ⟨hcn, -, -⟩ | ⟨c', hc', hd, hr⟩
  · rw [hc] at hcn
    cases hcn
  · obtain rfl : c' = c := by
      rw [hc] at hc'
      exact (Option.some.inj hc').symm
    subst hr
    exact ⟨rfl, rfl,
      string_append_assoc _ _ "-service-account",
      arp, hd, rfl⟩

/-- Witness for C9 at a concrete configuration and resolved cluster. -/
theorem irsa_subject_matches_service_account_witness :
    cfgEx.get "project" "prefix" = some "demo" ∧
    cfgEx.get "kubernetes" "namespace" = some "demo-ns" ∧
    envSome.cluster = some clusterEx ∧
    run cfgEx envSome = Except.ok resultIrsaEx ∧
    (resultIrsaEx.service_account.name = "demo" ++ "-service-account" ∧
     resultIrsaEx.service_account.nsName = "demo-ns" ∧
     irsa_subject "demo-ns" "demo" =
       "system:serviceaccount:" ++ resultIrsaEx.service_account.nsName ++ ":" ++
         resultIrsaEx.service_account.name ∧
     ∃ d, create_assume_role_policy_irsa envSome.partition envSome.account_id
         "demo-ns" "demo" clusterEx = some d ∧
       resultIrsaEx.service_account_role.assume_role_policy = d) :=
  ⟨rfl, rfl, rfl, rfl,
    irsa_subject_matches_service_account cfgEx envSome resultIrsaEx clusterEx
      "demo" "demo-ns" rfl rfl rfl rfl⟩

/-- C10: every taggable AWS resource declaration (bucket, both policies,
both queues, the role) is passed the same constant tag map, whose entries
are Environment (the stack name), Project (the prefix), ManagedBy
("Pulumi") and GitOps ("true"). -/
theorem common_tags_on_taggable_resources
    (cfg : Config) (env : Env) (r : ProgramResult) (pfx : String)
    (hp : cfg.get "project" "prefix" = some pfx)
    (hrun : run cfg env = Except.ok r) :
    common_tags env.stack pfx =
      [("Environment", env.stack), ("Project", pfx),
       ("ManagedBy", "Pulumi"), ("GitOps", "true")] ∧
    r.s3_bucket.tags = common_tags env.stack pfx ∧
    r.s3_access_policy.tags = common_tags env.stack pfx ∧
    r.dlq.tags = common_tags env.stack pfx ∧
    r.sqs_queue.tags = common_tags env.stack pfx ∧
    r.sqs_access_policy.tags = common_tags env.stack pfx ∧
    r.service_account_role.tags = common_tags env.stack pfx := by
  obtain ⟨region, pfx', nsName, arp, hg1, hg2, hg3, hcase⟩ := run_ok_inv cfg env r hrun
  obtain rfl : pfx' = pfx := by
    rw [hp] at hg2
    exact (Option.some.inj hg2).symm
  rcases hcase with ⟨-, -, hr⟩ | ⟨c, -, -, hr⟩ <;> subst hr <;>
    exact ⟨rfl, rfl, rfl, rfl, rfl, rfl, rfl⟩

/-- Witness for C10 at a concrete configuration and environment. -/
theorem common_tags_on_taggable_resources_witness :
    cfgEx.get "project" "prefix" = some "demo" ∧
    run cfgEx envNone = Except.ok resultBasicEx ∧
    (common_tags envNone.stack "demo" =
      [("Environment", envNone.stack), ("Project", "demo"),
       ("ManagedBy", "Pulumi"), ("GitOps", "true")] ∧
     resultBasicEx.s3_bucket.tags = common_tags envNone.stack "demo" ∧
     resultBasicEx.s3_access_policy.tags = common_tags envNone.stack "demo" ∧
     resultBasicEx.dlq.tags = common_tags envNone.stack "demo" ∧
     resultBasicEx.sqs_queue.tags = common_tags envNone.stack "demo" ∧
     resultBasicEx.sqs_access_policy.tags = common_tags envNone.stack "demo" ∧
     resultBasicEx.service_account_role.tags = common_tags envNone.stack "demo") :=
  ⟨rfl, rfl, common_tags_on_taggable_resources cfgEx envNone resultBasicEx "demo" rfl rfl⟩
